import Mathlib

/-!
# RideShaman dispatch service: a shallow embedding

This file embeds the algorithmic core of the RideShaman repository
(`src/services/dispatchService.ts`) in Lean 4 and proves the specified
properties of it.

Modelling conventions:
* JavaScript `number` values that flow through the arithmetic of the
  dispatch engine (prices, distances, durations, timestamps) are modelled
  as rationals (`ℚ`); `Math.round` is `jsRound` below (`⌊x + 1/2⌋`, the
  round-half-up semantics of `Math.round`).
* The value `Infinity` (used as the initial `minDistance` of the
  nearest-neighbor loop) is modelled by the dedicated type `JsNum`.
* External collaborators (Nominatim geocoding, OSRM routing, the Gemini
  calls, `Date` parsing, `encodeURIComponent`) are pure-function
  parameters collected in environment structures; a `none` result stands
  for a failed call / thrown error.
-/

namespace RideShaman

/-- `Math.round` of JavaScript: round half toward positive infinity. -/
def jsRound (q : ℚ) : ℤ := ⌊q + 1/2⌋

/-- A JavaScript number appearing in a travel matrix comparison: either a
finite value or `Infinity`. -/
inductive JsNum where
  | num (q : ℚ)
  | posInf
  deriving DecidableEq, Repr

/-- The `<` comparison on `JsNum` (JavaScript `<`; `Infinity < Infinity`
is `false`). -/
def JsNum.ltb : JsNum → JsNum → Bool
  | .num a, .num b => a < b
  | .num _, .posInf => true
  | .posInf, _ => false

/-- `pat` is a prefix of `l` (character lists). -/
def charsHasPref : List Char → List Char → Bool
  | _, [] => true
  | [], _ :: _ => false
  | a :: l, b :: p => a == b && charsHasPref l p

/-- `pat` occurs as a contiguous run inside `l` (character lists). -/
def charsContains : List Char → List Char → Bool
  | [], pat => pat.isEmpty
  | a :: t, pat => charsHasPref (a :: t) pat || charsContains t pat

/-- JavaScript `String.prototype.includes`. -/
def strIncludes (s pat : String) : Bool := charsContains s.data pat.data

/-- JavaScript `String.prototype.startsWith`. -/
def jsStartsWith (s pat : String) : Bool := charsHasPref s.data pat.data

/-- One character of `toLowerCase`.  Modelled for ASCII plus the Czech
diacritics that occur in the tariff keywords and addresses. -/
def jsCharToLower (c : Char) : Char :=
  match c with
  | 'Á' => 'á' | 'Č' => 'č' | 'Ď' => 'ď' | 'É' => 'é' | 'Ě' => 'ě'
  | 'Í' => 'í' | 'Ň' => 'ň' | 'Ó' => 'ó' | 'Ř' => 'ř' | 'Š' => 'š'
  | 'Ť' => 'ť' | 'Ú' => 'ú' | 'Ů' => 'ů' | 'Ý' => 'ý' | 'Ž' => 'ž'
  | _ => c.toLower

/-- JavaScript `String.prototype.toLowerCase` (see `jsCharToLower`). -/
def jsToLower (s : String) : String := String.mk (s.data.map jsCharToLower)

/-- `src/types.ts` `VehicleType`. -/
inductive VehicleType where
  | car
  | van
  deriving DecidableEq, Repr, BEq

/-- `src/types.ts` `VehicleStatus`. -/
inductive VehicleStatus where
  | available
  | busy
  | outOfService
  | notDrivingToday
  deriving DecidableEq, Repr, BEq

/-- `src/types.ts` `Vehicle` (the fields the dispatch engine reads). -/
structure Vehicle where
  id : Nat
  name : String
  licensePlate : String
  type : VehicleType
  status : VehicleStatus
  location : String
  capacity : Nat
  freeAt : Option ℚ
  deriving DecidableEq, Repr

/-- A flat-rate rule as consumed by `calculatePrice`
(`rate.name`, `rate.priceCar`, `rate.priceVan`). -/
structure FlatRateRule where
  id : Nat
  name : String
  priceCar : ℚ
  priceVan : ℚ
  deriving DecidableEq, Repr

/-- `src/types.ts` `Tariff`. -/
structure Tariff where
  startingFee : ℚ
  pricePerKmCar : ℚ
  pricePerKmVan : ℚ
  flatRates : List FlatRateRule
  deriving DecidableEq, Repr

/-- `src/types.ts` `RideRequest`, with the multi-stop field `stops` used
by `dispatchService.ts` (first stop = pickup).  `notes` is the optional
field; `none` and `some ""` are both falsy in the source. -/
structure RideRequest where
  stops : List String
  customerName : String
  customerPhone : String
  passengers : Nat
  pickupTime : String
  notes : Option String
  deriving DecidableEq, Repr

/-- The flat-rate matching condition of `calculatePrice`
(`dispatchService.ts` lines 154-161): per-locality keyword tests on the
lowercased rule name and lowercased pickup/destination texts. -/
def flatRateMatches (rate : FlatRateRule) (pickupLower destLower : String) : Bool :=
  let rateNameLower := jsToLower rate.name
  (strIncludes rateNameLower "mikulov" && strIncludes pickupLower "mikulov" &&
    strIncludes destLower "mikulov") ||
  (strIncludes rateNameLower "hustopeč" && strIncludes pickupLower "hustopeče" &&
    strIncludes destLower "hustopeče") ||
  (strIncludes rateNameLower "zaječí" &&
    (strIncludes pickupLower "zaječí" || strIncludes destLower "zaječí"))

/-- The `for`-loop of `calculatePrice`: scan the flat rates in list order
and return the first matching rule's car/van price. -/
def scanFlatRates (chargeVanPrice : Bool) (pickupLower destLower : String) :
    List FlatRateRule → Option ℚ
  | [] => none
  | rate :: rest =>
    if flatRateMatches rate pickupLower destLower then
      some (if chargeVanPrice then rate.priceVan else rate.priceCar)
    else scanFlatRates chargeVanPrice pickupLower destLower rest

/-- `calculatePrice` (`dispatchService.ts` lines 139-165). -/
def calculatePrice (pickupAddress destinationAddress : String) (rideDistanceKm : ℚ)
    (vehicleType : VehicleType) (passengers : Nat) (tariff : Tariff) : ℚ :=
  let pickupLower := jsToLower pickupAddress
  let destLower := jsToLower destinationAddress
  let chargeVanPrice := vehicleType == VehicleType.van || decide (4 < passengers)
  match scanFlatRates chargeVanPrice pickupLower destLower tariff.flatRates with
  | some price => price
  | none =>
    let pricePerKm := if chargeVanPrice then tariff.pricePerKmVan else tariff.pricePerKmCar
    ((jsRound (tariff.startingFee + rideDistanceKm * pricePerKm) : ℤ) : ℚ)

/-- The `Date` collaborator used by `generateSms`: `parse s` models
`new Date(s).getTime()` (`none` = `NaN`), and `hours`/`minutes` model
`getHours()`/`getMinutes()` on the parsed timestamp (local time). -/
structure DateEnv where
  parse : String → Option ℤ
  hours : ℤ → Nat
  minutes : ℤ → Nat

/-- `n.toString().padStart(2, '0')`. -/
def pad2 (n : Nat) : String :=
  let s := toString n
  if s.length < 2 then "0" ++ s else s

/-- The pickup-time formatting of `generateSms` (`dispatchService.ts`
lines 15-24): the literal sentinel `"ihned"` maps to the localized
as-soon-as-possible phrase; a non-empty string parsing to a valid date is
rendered `HH:MM` (zero-padded); anything else is kept verbatim. -/
def formatPickupTime (d : DateEnv) (t : String → String) (pickupTime : String) : String :=
  if pickupTime = "ihned" then t "sms.pickupASAP"
  else if pickupTime ≠ "" then
    match d.parse pickupTime with
    | some ts => pad2 (d.hours ts) ++ ":" ++ pad2 (d.minutes ts)
    | none => pickupTime
  else pickupTime

/-- The message assembly of `generateSms` (`dispatchService.ts` lines
26-30), given an already-formatted pickup time: numbered stop list, name,
phone, passenger count, pickup time, and optional appended note. -/
def smsBody (ride : RideRequest) (t : String → String) (formattedPickupTime : String) : String :=
  let stopsText := String.intercalate ", "
    (ride.stops.enum.map (fun p => toString (p.1 + 1) ++ ". " ++ p.2))
  let baseSms := t "sms.route" ++ ": " ++ stopsText ++ ". " ++ t "sms.name" ++ ": " ++
    ride.customerName ++ ", " ++ t "sms.phone" ++ ": " ++ ride.customerPhone ++ ", " ++
    t "sms.passengers" ++ ": " ++ toString ride.passengers ++ ", " ++
    t "sms.pickupTime" ++ ": " ++ formattedPickupTime
  match ride.notes with
  | some n => if n ≠ "" then baseSms ++ ", " ++ t "sms.note" ++ ": " ++ n else baseSms
  | none => baseSms

/-- `generateSms` (`dispatchService.ts` lines 14-31). -/
def generateSms (d : DateEnv) (ride : RideRequest) (t : String → String) : String :=
  smsBody ride t (formatPickupTime d t ride.pickupTime)

/-- `src/types.ts` `MessagingApp`. -/
inductive MessagingApp where
  | whatsapp
  | telegram
  | sms
  deriving DecidableEq, Repr

/-- `phone.replace(/\s/g, '')`: remove every whitespace character. -/
def removeJsWhitespace (s : String) : String :=
  String.mk (s.data.filter (fun c => !(c == ' ' || c == '\t' || c == '\n' ||
    c == '\r' || c == '\x0b' || c == '\x0c' || c == '\u00A0')))

/-- `generateShareLink` (`dispatchService.ts` lines 36-52).  `enc` models
the JavaScript builtin `encodeURIComponent`. -/
def generateShareLink (enc : String → String) (app : MessagingApp)
    (phone text : String) : String :=
  let encodedText := enc text
  let cleanPhone := removeJsWhitespace phone
  match app with
  | .whatsapp =>
    let internationalPhone :=
      if jsStartsWith cleanPhone "420" then cleanPhone else "420" ++ cleanPhone
    "https://wa.me/" ++ internationalPhone ++ "?text=" ++ encodedText
  | .telegram => "tg://share/url?text=" ++ encodedText
  | .sms => "sms:" ++ cleanPhone ++ "?body=" ++ encodedText

/-- JavaScript `Array.prototype.join('/')`. -/
def joinSlash : List String → String
  | [] => ""
  | [a] => a
  | a :: b :: rest => a ++ "/" ++ joinSlash (b :: rest)

/-- `generateNavigationUrl` (`dispatchService.ts` lines 58-72).  `enc`
models `encodeURIComponent`; the `URL` object is modelled by direct string
concatenation of its serialization (origin plus path), which the source
builds from percent-encoded segments that the `URL` serializer keeps
unchanged. -/
def generateNavigationUrl (enc : String → String) (driverLocation : String)
    (stops : List String) : String :=
  if driverLocation = "" || stops.isEmpty then "https://maps.google.com"
  else
    let waypoints := stops.dropLast
    let destination := stops.getLastD ""
    "https://www.google.com/maps/dir/" ++ enc driverLocation ++ "/" ++
      (if 0 < waypoints.length then joinSlash (waypoints.map enc) ++ "/" else "") ++
      enc destination

/-- `optimizeRouteNearestNeighbor`'s inner scan (`dispatchService.ts`
lines 208-218): one step of the fold tracking `(nearestPoint, minDistance)`
over candidate index `i`.  A matrix entry read out of bounds is JavaScript
`undefined`, whose `<` comparison is always false — the same behaviour as
the `posInf` default used here. -/
def nnScanFold (matrix : List (List JsNum)) (lastPoint : Nat) (visited : List Nat) :
    Option Nat × JsNum → Nat → Option Nat × JsNum :=
  fun acc i =>
    if visited.contains i then acc
    else
      let d := (matrix.getD lastPoint []).getD i JsNum.posInf
      if JsNum.ltb d acc.2 then (some i, d) else acc

/-- The full inner scan: the unvisited index with the strictly smallest
matrix distance from `lastPoint` (first found wins), or `none` when no
comparison succeeds (the source's `nearestPoint === -1`). -/
def nnStep (matrix : List (List JsNum)) (lastPoint : Nat) (visited : List Nat)
    (numPoints : Nat) : Option Nat :=
  ((List.range numPoints).foldl (nnScanFold matrix lastPoint visited)
    (none, JsNum.posInf)).1

/-- The `while` loop of `optimizeRouteNearestNeighbor` (lines 207-233),
with explicit fuel (the loop adds at least one point per iteration, so
`numPoints` fuel is enough).  When the scan finds no nearest point, all
remaining unvisited indices are appended in their original order and the
loop breaks. -/
def nnLoop (matrix : List (List JsNum)) (numPoints : Nat) :
    Nat → List Nat → List Nat → Nat → List Nat
  | 0, path, _, _ => path
  | fuel + 1, path, visited, lastPoint =>
    if path.length < numPoints then
      match nnStep matrix lastPoint visited numPoints with
      | some nearestPoint =>
        nnLoop matrix numPoints fuel (path ++ [nearestPoint])
          (nearestPoint :: visited) nearestPoint
      | none => path ++ (List.range numPoints).filter (fun i => !visited.contains i)
    else path

/-- `optimizeRouteNearestNeighbor` (`dispatchService.ts` lines 197-235). -/
def optimizeRouteNearestNeighbor (matrix : List (List JsNum)) : List Nat :=
  if matrix.length < 3 then List.range matrix.length
  else nnLoop matrix matrix.length matrix.length [0] [0] 0

/-- Geographic coordinates returned by the geocoding collaborator. -/
structure Coord where
  lat : ℚ
  lon : ℚ
  deriving DecidableEq, Repr

/-- A route returned by the OSRM routing collaborator: total duration in
seconds and distance in meters. -/
structure OsrmRoute where
  duration : ℚ
  distance : ℚ
  deriving DecidableEq, Repr

/-- `src/types.ts` `AssignmentAlternative`. -/
structure AssignmentAlternative where
  vehicle : Vehicle
  eta : ℤ
  waitTime : ℤ
  estimatedPrice : ℚ
  deriving DecidableEq, Repr

/-- `src/types.ts` `AssignmentResultData`. -/
structure AssignmentResultData where
  vehicle : Vehicle
  eta : ℤ
  sms : String
  estimatedPrice : ℚ
  waitTime : ℤ
  rideDuration : ℤ
  rideDistance : ℚ
  alternatives : List AssignmentAlternative
  rideRequest : RideRequest
  optimizedStops : Option (List String)
  deriving DecidableEq, Repr

/-- The result of `findBestVehicle`: a complete assignment or a typed
error (`messageKey` plus optional detail string), never an exception. -/
inductive DispatchOutcome where
  | ok (r : AssignmentResultData)
  | err (messageKey : String) (message : Option String)
  deriving DecidableEq, Repr

/-- The external collaborators of `findBestVehicle`, as pure functions:
* `geocode` — Nominatim lookup (`none` = address not found, which the
  source surfaces as a thrown error caught by the outer handler);
* `route` — OSRM routing over an ordered coordinate list (`none` = no
  route / network failure, which `getOsrmRoute` turns into `null`);
* `aiOrder` — the Gemini route-order response for a travel matrix and
  destination count (`none` = error, handled inside `getOptimalRouteOrder`);
* `aiChoice` — the Gemini best-vehicle id response (`none` = thrown
  error, caught by the outer handler);
* `hasApiKey` — whether `GEMINI_API_KEY` is set;
* `now` — `Date.now()` in milliseconds;
* `date` — the `Date` parsing collaborator used by `generateSms`. -/
structure Env where
  geocode : String → Option Coord
  route : List Coord → Option OsrmRoute
  aiOrder : List (List JsNum) → Nat → Option (List Nat)
  aiChoice : List AssignmentAlternative → Option Nat
  hasApiKey : Bool
  now : ℚ
  date : DateEnv

/-- The in-service filter of `findBestVehicle` (line 251): every status
except out-of-service and not-driving-today. -/
def isInService (v : Vehicle) : Bool :=
  !(v.status == VehicleStatus.outOfService) && !(v.status == VehicleStatus.notDrivingToday)

/-- `Promise.all` over `geocodeAddress`: all coordinates, or the error
message of a failing address. -/
def geocodeAll (g : String → Option Coord) : List String → Except String (List Coord)
  | [] => Except.ok []
  | address :: rest =>
    match g address with
    | none => Except.error ("Could not find coordinates for address: " ++ address ++ ".")
    | some c =>
      match geocodeAll g rest with
      | Except.ok cs => Except.ok (c :: cs)
      | Except.error e => Except.error e

/-- The matrix unit argument of `buildTravelMatrix`. -/
inductive MatrixUnit where
  | seconds
  | minutes
  deriving DecidableEq, Repr

/-- One entry of the travel matrix for distinct endpoints
(`dispatchService.ts` lines 179-185). -/
def routeValueFor (env : Env) (unit : MatrixUnit) (origin destination : Coord) : JsNum :=
  match env.route [origin, destination] with
  | some route =>
    JsNum.num (match unit with
      | .minutes => ((jsRound (route.duration / 60) : ℤ) : ℚ)
      | .seconds => route.duration)
  | none => JsNum.num (match unit with | .minutes => 999 | .seconds => 99999)

/-- `buildTravelMatrix` (lines 170-190).  The source's `origin ===
destination` object-identity test holds exactly for the diagonal pair of
the iteration (and for coordinates shared via the geocode cache), modelled
here by value equality of the coordinates. -/
def buildTravelMatrix (env : Env) (coords : List Coord) (unit : MatrixUnit) :
    List (List JsNum) :=
  coords.map (fun origin => coords.map (fun destination =>
    if origin == destination then JsNum.num 0
    else routeValueFor env unit origin destination))

/-- `getOptimalRouteOrder` (lines 341-394): accept the collaborator's
order verbatim when its length matches the destination count, otherwise
(or on error) fall back to the original order `[1, ..., n]`. -/
def getOptimalRouteOrder (env : Env) (matrix : List (List JsNum))
    (numDestinations : Nat) : List Nat :=
  let destinationIndices := (List.range numDestinations).map (· + 1)
  match env.aiOrder matrix numDestinations with
  | some order => if order.length = numDestinations then order else destinationIndices
  | none => destinationIndices

/-- `chooseBestVehicleWithAI` (lines 397-428): the alternative whose
vehicle id the collaborator returned, or else the first suitable vehicle when
that id is not in the list; `none` models a thrown collaborator error
(propagating to the outer catch). -/
def chooseBestVehicleWithAI (env : Env)
    (suitableVehicles : List AssignmentAlternative) : Option AssignmentAlternative :=
  match env.aiChoice suitableVehicles with
  | none => none
  | some bestVehicleId =>
    match suitableVehicles.find? (fun alt => alt.vehicle.id == bestVehicleId) with
    | some alt => some alt
    | none => suitableVehicles.head?

/-- The queue-wait computation of line 296: minutes until `freeAt` for a
busy vehicle with a truthy (non-zero) `freeAt`, floored at zero. -/
def waitTimeOf (env : Env) (vehicle : Vehicle) : ℤ :=
  match vehicle.freeAt with
  | some freeAt =>
    if vehicle.status == VehicleStatus.busy && !(freeAt == 0) then
      max 0 (jsRound ((freeAt - env.now) / 60000))
    else 0
  | none => 0

/-- One element of `alternativesWithEta` (lines 293-304): ETA from the
vehicle's route to pickup (sentinel 999 when the routing collaborator
returned no route) plus queue wait, and the fare from the first stop to
the final destination. -/
def mkAlternative (env : Env) (rideRequest : RideRequest) (finalDestination : String)
    (rideDistanceKm : ℚ) (tariff : Tariff) (p : Vehicle × Option OsrmRoute) :
    AssignmentAlternative :=
  let vehicle := p.1
  let eta : ℤ := match p.2 with
    | some route => jsRound (route.duration / 60)
    | none => 999
  let waitTime := waitTimeOf env vehicle
  { vehicle := vehicle
    eta := eta + waitTime
    waitTime := waitTime
    estimatedPrice := calculatePrice (rideRequest.stops.headD "") finalDestination
      rideDistanceKm vehicle.type rideRequest.passengers tariff }

/-- Lines 291-306: per-vehicle routes to pickup, alternative construction,
and the ascending sort by total ETA (`sort((a, b) => a.eta - b.eta)`). -/
def rankVehicles (env : Env) (rideRequest : RideRequest)
    (vehiclesInService : List Vehicle) (vehicleCoords : List Coord)
    (pickupCoords : Coord) (finalDestination : String) (rideDistanceKm : ℚ)
    (tariff : Tariff) : List AssignmentAlternative :=
  let etasData := vehicleCoords.map (fun coords => env.route [coords, pickupCoords])
  let alternativesWithEta := (vehiclesInService.zip etasData).map
    (mkAlternative env rideRequest finalDestination rideDistanceKm tariff)
  alternativesWithEta.mergeSort (fun a b => decide (a.eta ≤ b.eta))

/-- The capacity filter of line 308. -/
def suitableOf (rideRequest : RideRequest) (alts : List AssignmentAlternative) :
    List AssignmentAlternative :=
  alts.filter (fun alt => decide (rideRequest.passengers ≤ alt.vehicle.capacity))

/-- Lines 309-334: the insufficient-capacity error, the winner selection
(first by ETA, or the AI-chosen vehicle), the alternatives (the suitable
list minus every entry carrying the winner's vehicle id in AI mode, the
tail in non-AI mode), and the final result record. -/
def selectWinner (env : Env) (isAiEnabled : Bool) (rideRequest : RideRequest)
    (sms : String) (optimizedStops : Option (List String))
    (rideDurationMinutes : ℤ) (rideDistanceKm : ℚ)
    (suitableVehicles : List AssignmentAlternative) : DispatchOutcome :=
  match suitableVehicles with
  | [] =>
    DispatchOutcome.err "error.insufficientCapacity" (some (toString rideRequest.passengers))
  | best0 :: rest =>
    if isAiEnabled then
      match chooseBestVehicleWithAI env (best0 :: rest) with
      | none => DispatchOutcome.err "error.geocodingFailed" (some "AI selection failed")
      | some bestAlternative =>
        DispatchOutcome.ok
          { vehicle := bestAlternative.vehicle
            eta := bestAlternative.eta
            sms := sms
            estimatedPrice := bestAlternative.estimatedPrice
            waitTime := bestAlternative.waitTime
            rideDuration := rideDurationMinutes
            rideDistance := rideDistanceKm
            alternatives := (best0 :: rest).filter
              (fun v => !(v.vehicle.id == bestAlternative.vehicle.id))
            rideRequest := rideRequest
            optimizedStops := optimizedStops }
    else
      DispatchOutcome.ok
        { vehicle := best0.vehicle
          eta := best0.eta
          sms := sms
          estimatedPrice := best0.estimatedPrice
          waitTime := best0.waitTime
          rideDuration := rideDurationMinutes
          rideDistance := rideDistanceKm
          alternatives := rest
          rideRequest := rideRequest
          optimizedStops := optimizedStops }

/-- The route-optimization block of lines 264-283: for more than two stops
with optimization requested, reorder the stop coordinates by the AI order
or the nearest-neighbor heuristic; otherwise keep the original order with
no `optimizedStops`.  Out-of-range reordering indices yield JavaScript
`undefined`, not modelled beyond the defaults (this cannot occur for the
heuristic, whose output is proved to be a permutation). -/
def applyOptimization (env : Env) (rideRequest : RideRequest)
    (isAiEnabled optimize : Bool) (allStopCoords : List Coord) :
    List Coord × Option (List String) :=
  if 2 < rideRequest.stops.length ∧ optimize = true then
    let reorderingIndices :=
      if isAiEnabled then
        let travelTimeMatrix := buildTravelMatrix env allStopCoords MatrixUnit.minutes
        0 :: getOptimalRouteOrder env travelTimeMatrix (rideRequest.stops.length - 1)
      else
        let travelMatrix := buildTravelMatrix env allStopCoords MatrixUnit.seconds
        optimizeRouteNearestNeighbor travelMatrix
    let reorderedStops := reorderingIndices.map (fun i => rideRequest.stops.getD i "")
    let reorderedCoords := reorderingIndices.map
      (fun i => allStopCoords.getD i { lat := 0, lon := 0 })
    (reorderedCoords, some reorderedStops)
  else (allStopCoords, none)

/-- The driver SMS of the run (lines 255 and 282): regenerated from the
reordered stops when optimization took place.  The translator passed by
`findBestVehicle` is the identity on keys (line 254). -/
def smsOf (env : Env) (rideRequest : RideRequest)
    (optimizedStops : Option (List String)) : String :=
  match optimizedStops with
  | some s => generateSms env.date { rideRequest with stops := s } (fun key => key)
  | none => generateSms env.date rideRequest (fun key => key)

/-- The final destination used for pricing (line 297): the last of the
optimized stops when present, of the requested stops otherwise. -/
def finalDestOf (rideRequest : RideRequest) (optimizedStops : Option (List String)) : String :=
  (match optimizedStops with
    | some s => s
    | none => rideRequest.stops).getLastD ""

/-- `findBestVehicle` (`dispatchService.ts` lines 241-339).  The
try/catch around the body maps any thrown error (geocoding failure, or a
crash such as reading a property of `undefined`) to the
`error.geocodingFailed` result. -/
def findBestVehicle (env : Env) (rideRequest : RideRequest) (vehicles : List Vehicle)
    (isAiEnabled : Bool) (tariff : Tariff) (optimize : Bool) : DispatchOutcome :=
  if isAiEnabled && !env.hasApiKey then DispatchOutcome.err "error.missingApiKey" none
  else
    let vehiclesInService := vehicles.filter isInService
    if vehiclesInService.isEmpty then DispatchOutcome.err "error.noVehiclesInService" none
    else
      match geocodeAll env.geocode rideRequest.stops with
      | Except.error e => DispatchOutcome.err "error.geocodingFailed" (some e)
      | Except.ok allStopCoords0 =>
        match geocodeAll env.geocode (vehiclesInService.map (fun v => v.location)) with
        | Except.error e => DispatchOutcome.err "error.geocodingFailed" (some e)
        | Except.ok vehicleCoords =>
          let opt := applyOptimization env rideRequest isAiEnabled optimize allStopCoords0
          let allStopCoords := opt.1
          let optimizedStops := opt.2
          let sms := smsOf env rideRequest optimizedStops
          match env.route allStopCoords with
          | none => DispatchOutcome.err "error.mainRouteCalculationFailed" none
          | some mainRideRoute =>
            let rideDistanceKm := mainRideRoute.distance / 1000
            let rideDurationMinutes := jsRound (mainRideRoute.duration / 60)
            match allStopCoords0.head? with
            | none =>
              DispatchOutcome.err "error.geocodingFailed"
                (some "Cannot read properties of undefined")
            | some pickupCoords =>
              let finalDestination := finalDestOf rideRequest optimizedStops
              let suitableVehicles := suitableOf rideRequest
                (rankVehicles env rideRequest vehiclesInService vehicleCoords
                  pickupCoords finalDestination rideDistanceKm tariff)
              selectWinner env isAiEnabled rideRequest sms optimizedStops
                rideDurationMinutes rideDistanceKm suitableVehicles

/-- The capacity-qualified, ETA-sorted list that the selection stage of
`findBestVehicle` receives, as a function of the pipeline inputs (the
geocoded stop coordinates `cs` with head `pickup`, the geocoded vehicle
coordinates `vcs`, and the main route `main`). -/
def dispatchSuitable (env : Env) (rideRequest : RideRequest) (vehicles : List Vehicle)
    (isAiEnabled optimize : Bool) (tariff : Tariff) (cs vcs : List Coord)
    (pickup : Coord) (main : OsrmRoute) : List AssignmentAlternative :=
  suitableOf rideRequest
    (rankVehicles env rideRequest (vehicles.filter isInService) vcs pickup
      (finalDestOf rideRequest (applyOptimization env rideRequest isAiEnabled optimize cs).2)
      (main.distance / 1000) tariff)

/-! ### Concrete test fixtures

Small concrete environments used to evaluate the pipeline on explicit
inputs: a geocoder for the addresses "P" (pickup), "D" (destination),
"A"/"B" (vehicle locations), and a router that only knows the main
P-to-D route, so every vehicle-to-pickup query fails (sentinel path). -/

/-- Fixture geocoder. -/
def geocodePDAB : String → Option Coord := fun s =>
  if s == "P" then some ⟨0, 0⟩
  else if s == "D" then some ⟨1, 1⟩
  else if s == "A" then some ⟨2, 2⟩
  else if s == "B" then some ⟨3, 3⟩ else none

/-- Fixture router: only the main P-to-D route exists. -/
def routeMainOnly : List Coord → Option OsrmRoute := fun l =>
  if l == [⟨0, 0⟩, ⟨1, 1⟩] then some ⟨600, 5000⟩ else none

/-- Fixture date collaborator (nothing parses). -/
def dateStub : DateEnv := ⟨fun _ => none, fun _ => 0, fun _ => 0⟩

/-- Fixture environment: delegated mode, the AI always answers vehicle
id 1. -/
def envDup : Env := ⟨geocodePDAB, routeMainOnly, fun _ _ => none, fun _ => some 1, true, 0, dateStub⟩

/-- Fixture environment: non-delegated mode (no API key, AI throws). -/
def envTie : Env := ⟨geocodePDAB, routeMainOnly, fun _ _ => none, fun _ => none, false, 0, dateStub⟩

/-- Fixture environment: delegated mode, the AI always answers vehicle
id 2. -/
def envTieAI : Env := ⟨geocodePDAB, routeMainOnly, fun _ _ => none, fun _ => some 2, true, 0, dateStub⟩

/-- Fixture environment whose router never finds a route. -/
def envNoRoute : Env := ⟨geocodePDAB, fun _ => none, fun _ _ => none, fun _ => none, false, 0, dateStub⟩

/-- Fixture two-stop request for two passengers. -/
def reqPD : RideRequest := ⟨["P", "D"], "K", "777", 2, "ihned", none⟩

/-- Fixture in-service car of capacity 4 with the given id and location. -/
def mkVeh (i : Nat) (loc : String) : Vehicle :=
  ⟨i, "V", "B", VehicleType.car, VehicleStatus.available, loc, 4, none⟩

/-- Fixture all-zero tariff with no flat rates. -/
def tariffZero : Tariff := ⟨0, 0, 0, []⟩

/-! ## Basic lemmas about `calculatePrice` -/

/-- If some rule in the list matches, `scanFlatRates` returns the first
matching rule's price. -/
theorem scanFlatRates_first_match (chargeVan : Bool) (pl dl : String)
    (pre post : List FlatRateRule) (r : FlatRateRule)
    (hpre : ∀ q ∈ pre, flatRateMatches q pl dl = false)
    (hr : flatRateMatches r pl dl = true) :
    scanFlatRates chargeVan pl dl (pre ++ r :: post) =
      some (if chargeVan then r.priceVan else r.priceCar) := by
  induction pre with
  | nil => simp [scanFlatRates, hr]
  | cons q qs ih =>
    have hq : flatRateMatches q pl dl = false := hpre q (by simp)
    simp only [List.cons_append, scanFlatRates, hq, Bool.false_eq_true, if_false]
    exact ih fun x hx => hpre x (by simp [hx])

/-- If no rule matches, `scanFlatRates` returns `none`. -/
theorem scanFlatRates_none (chargeVan : Bool) (pl dl : String)
    (rates : List FlatRateRule)
    (h : ∀ q ∈ rates, flatRateMatches q pl dl = false) :
    scanFlatRates chargeVan pl dl rates = none := by
  induction rates with
  | nil => rfl
  | cons q qs ih =>
    have hq : flatRateMatches q pl dl = false := h q (by simp)
    simp only [scanFlatRates, hq, Bool.false_eq_true, if_false]
    exact ih fun x hx => h x (by simp [hx])

/-- If `scanFlatRates` returns a price, it is the car or van price of some
rule of the list. -/
theorem scanFlatRates_mem (chargeVan : Bool) (pl dl : String)
    (rates : List FlatRateRule) (p : ℚ)
    (h : scanFlatRates chargeVan pl dl rates = some p) :
    ∃ r ∈ rates, p = if chargeVan then r.priceVan else r.priceCar := by
  induction rates with
  | nil => simp [scanFlatRates] at h
  | cons q qs ih =>
    by_cases hq : flatRateMatches q pl dl = true
    · simp only [scanFlatRates, hq, if_true, Option.some.injEq] at h
      exact ⟨q, by simp, h.symm⟩
    · simp only [scanFlatRates, hq, if_false] at h
      obtain ⟨r, hr, hp⟩ := ih h
      exact ⟨r, by simp [hr], hp⟩

/-- C3 (counterexample): the claim "calculatePrice returns *that* rule's
price" fails when an earlier rule in the tariff's list also matches: with
two flat-rate rules both named for the locality "zaječí" (prices 100 and
200) and pickup/destination both containing the keyword, the price is the
first rule's 100, not the second rule's 200, although the second rule also
satisfies the claim's hypothesis. -/
theorem calculatePrice_first_match_counterexample :
    calculatePrice "zaječí" "zaječí" 0 VehicleType.car 1
      { startingFee := 0, pricePerKmCar := 0, pricePerKmVan := 0,
        flatRates := [{ id := 1, name := "zaječí", priceCar := 100, priceVan := 150 },
                      { id := 2, name := "zaječí", priceCar := 200, priceVan := 250 }] } = 100
    ∧ ({ id := 2, name := "zaječí", priceCar := 200, priceVan := 250 } : FlatRateRule) ∈
      ({ startingFee := 0, pricePerKmCar := 0, pricePerKmVan := 0,
         flatRates := [{ id := 1, name := "zaječí", priceCar := 100, priceVan := 150 },
                       { id := 2, name := "zaječí", priceCar := 200, priceVan := 250 }] } : Tariff).flatRates
    ∧ strIncludes (jsToLower "zaječí") "zaječí" = true
    ∧ (100 : ℚ) ≠ 200 := by
  refine ⟨by decide, by decide, by decide, by norm_num⟩

/-- C3 (amended): for any tariff, if rule `r` is the *first* rule of the
flat-rate list that matches the (lowercased) pickup and destination texts
per the per-locality keyword test, then `calculatePrice` returns `r`'s car
or van price according to the van-rate condition, for every distance. -/
theorem calculatePrice_flat_rate_first_match (pickup dest : String) (dist : ℚ)
    (vt : VehicleType) (pass : Nat) (tariff : Tariff)
    (pre post : List FlatRateRule) (r : FlatRateRule)
    (hsplit : tariff.flatRates = pre ++ r :: post)
    (hpre : ∀ q ∈ pre, flatRateMatches q (jsToLower pickup) (jsToLower dest) = false)
    (hr : flatRateMatches r (jsToLower pickup) (jsToLower dest) = true) :
    calculatePrice pickup dest dist vt pass tariff =
      (if vt == VehicleType.van || decide (4 < pass) then r.priceVan else r.priceCar) := by
  simp only [calculatePrice, hsplit,
    scanFlatRates_first_match _ _ _ _ _ _ hpre hr]

/-- C3 (witness): a concrete tariff with a single "Zaječí" flat-rate rule;
pickup and destination both contain the keyword (case-insensitively), and
the price is the rule's car price at a nonzero distance. -/
theorem calculatePrice_flat_rate_first_match_witness :
    calculatePrice "Zaječí 12" "U nádraží, zaječí" 7 VehicleType.car 2
      { startingFee := 30, pricePerKmCar := 28, pricePerKmVan := 38,
        flatRates := [{ id := 1, name := "Zaječí - okolí", priceCar := 350, priceVan := 450 }] }
      = 350 := by
  have h := calculatePrice_flat_rate_first_match "Zaječí 12" "U nádraží, zaječí" 7
    VehicleType.car 2
    { startingFee := 30, pricePerKmCar := 28, pricePerKmVan := 38,
      flatRates := [{ id := 1, name := "Zaječí - okolí", priceCar := 350, priceVan := 450 }] }
    [] [] { id := 1, name := "Zaječí - okolí", priceCar := 350, priceVan := 450 }
    rfl (by intro q hq; simp at hq) (by decide)
  simpa using h

/-- C4: when no flat-rate rule matches, the price is
`round(startingFee + distanceKm * perKmRate)`, the per-km rate being the
van rate exactly when the vehicle is a van or more than 4 passengers were
requested. -/
theorem calculatePrice_metered (pickup dest : String) (dist : ℚ)
    (vt : VehicleType) (pass : Nat) (tariff : Tariff)
    (hnone : ∀ q ∈ tariff.flatRates,
      flatRateMatches q (jsToLower pickup) (jsToLower dest) = false) :
    calculatePrice pickup dest dist vt pass tariff =
      ((jsRound (tariff.startingFee + dist *
        (if vt == VehicleType.van || decide (4 < pass) then tariff.pricePerKmVan
         else tariff.pricePerKmCar)) : ℤ) : ℚ) := by
  simp only [calculatePrice, scanFlatRates_none _ _ _ _ hnone]

/-- C4 (witness): tariff with starting fee 50, car rate 40, van rate 60 and
no matching flat rate; 10 km by car with 2 passengers costs
round(50 + 10*40) = 450. -/
theorem calculatePrice_metered_witness :
    calculatePrice "Hlavní 1, Brno" "Lidická 2, Brno" 10 VehicleType.car 2
      { startingFee := 50, pricePerKmCar := 40, pricePerKmVan := 60, flatRates := [] }
      = 450 := by
  rw [calculatePrice_metered]
  · rw [if_neg (by decide)]
    unfold jsRound
    rw [show ⌊(50 : ℚ) + 10 * 40 + 1 / 2⌋ = 450 from Int.floor_eq_iff.mpr (by norm_num)]
    norm_num
  · intro q hq
    simp at hq

/-- C6 (counterexample): `calculatePrice` is *not* always a non-negative
integer: the flat-rate path returns the stored rule price unrounded, so a
tariff whose matching flat-rate price is -1/2 yields the price -1/2 —
negative and not an integer (denominator 2). -/
theorem calculatePrice_nonneg_counterexample :
    calculatePrice "Mikulov" "mikulov 12" 5 VehicleType.car 2
      { startingFee := 0, pricePerKmCar := 0, pricePerKmVan := 0,
        flatRates := [{ id := 1, name := "Mikulov paušál", priceCar := -(1/2), priceVan := -(1/2) }] }
      = -(1/2)
    ∧ calculatePrice "Mikulov" "mikulov 12" 5 VehicleType.car 2
      { startingFee := 0, pricePerKmCar := 0, pricePerKmVan := 0,
        flatRates := [{ id := 1, name := "Mikulov paušál", priceCar := -(1/2), priceVan := -(1/2) }] }
      < 0
    ∧ ¬ ∃ z : ℤ, calculatePrice "Mikulov" "mikulov 12" 5 VehicleType.car 2
      { startingFee := 0, pricePerKmCar := 0, pricePerKmVan := 0,
        flatRates := [{ id := 1, name := "Mikulov paušál", priceCar := -(1/2), priceVan := -(1/2) }] }
      = (z : ℚ) := by
  have hm : flatRateMatches
      { id := 1, name := "Mikulov paušál", priceCar := -(1/2), priceVan := -(1/2) }
      (jsToLower "Mikulov") (jsToLower "mikulov 12") = true := by decide
  have he : calculatePrice "Mikulov" "mikulov 12" 5 VehicleType.car 2
      { startingFee := 0, pricePerKmCar := 0, pricePerKmVan := 0,
        flatRates := [{ id := 1, name := "Mikulov paušál", priceCar := -(1/2), priceVan := -(1/2) }] }
      = -(1/2) := by
    simp only [calculatePrice, scanFlatRates, hm, if_true]
    norm_num
  refine ⟨he, by rw [he]; norm_num, ?_⟩
  rintro ⟨z, hz⟩
  rw [he] at hz
  have h2 : (2 : ℚ) * (z : ℚ) = -1 := by rw [← hz]; ring
  have h3 : (2 * z : ℤ) = -1 := by exact_mod_cast h2
  omega

/-- C6 (amended): provided the tariff's starting fee and per-km rates are
non-negative, the distance is non-negative, and each flat-rate price is a
natural number, every value `calculatePrice` returns is a non-negative
integer (a natural number): the metered path rounds, and the flat-rate
path returns the stored integral price. -/
theorem calculatePrice_nonneg_integer (pickup dest : String) (dist : ℚ)
    (vt : VehicleType) (pass : Nat) (tariff : Tariff)
    (hd : 0 ≤ dist) (h1 : 0 ≤ tariff.startingFee)
    (h2 : 0 ≤ tariff.pricePerKmCar) (h3 : 0 ≤ tariff.pricePerKmVan)
    (hflat : ∀ r ∈ tariff.flatRates,
      (∃ n : ℕ, r.priceCar = (n : ℚ)) ∧ (∃ n : ℕ, r.priceVan = (n : ℚ))) :
    ∃ n : ℕ, calculatePrice pickup dest dist vt pass tariff = (n : ℚ) := by
  simp only [calculatePrice]
  cases hscan : scanFlatRates (vt == VehicleType.van || decide (4 < pass))
      (jsToLower pickup) (jsToLower dest) tariff.flatRates with
  | some p =>
    obtain ⟨r, hrmem, hp⟩ := scanFlatRates_mem _ _ _ _ _ hscan
    obtain ⟨⟨nc, hnc⟩, ⟨nv, hnv⟩⟩ := hflat r hrmem
    cases hcv : (vt == VehicleType.van || decide (4 < pass)) with
    | true => exact ⟨nv, by simp [hp, hcv, hnv]⟩
    | false => exact ⟨nc, by simp [hp, hcv, hnc]⟩
  | none =>
    set rate := (if vt == VehicleType.van || decide (4 < pass) then tariff.pricePerKmVan
      else tariff.pricePerKmCar) with hrate
    have hrnn : 0 ≤ rate := by
      rw [hrate]; split <;> assumption
    have hx : 0 ≤ tariff.startingFee + dist * rate :=
      add_nonneg h1 (mul_nonneg hd hrnn)
    have hge : 0 ≤ jsRound (tariff.startingFee + dist * rate) := by
      unfold jsRound
      exact Int.floor_nonneg.mpr (by linarith)
    refine ⟨(jsRound (tariff.startingFee + dist * rate)).toNat, ?_⟩
    show ((jsRound (tariff.startingFee + dist * rate) : ℤ) : ℚ) =
      ((jsRound (tariff.startingFee + dist * rate)).toNat : ℚ)
    exact_mod_cast (Int.toNat_of_nonneg hge).symm

/-- C6 (witness): a concrete well-formed tariff (integral, non-negative)
with both a matching flat rate and a metered route: the flat-rate query
returns a natural number. -/
theorem calculatePrice_nonneg_integer_witness :
    ∃ n : ℕ, calculatePrice "mikulov" "Mikulov, náměstí" 3 VehicleType.car 2
      { startingFee := 50, pricePerKmCar := 40, pricePerKmVan := 60,
        flatRates := [{ id := 1, name := "Mikulov", priceCar := 500, priceVan := 700 }] }
      = (n : ℚ) := by
  apply calculatePrice_nonneg_integer
  · norm_num
  · norm_num
  · norm_num
  · norm_num
  · intro r hr
    simp only [List.mem_singleton] at hr
    subst hr
    exact ⟨⟨500, by norm_num⟩, ⟨700, by norm_num⟩⟩

/-- C8 (counterexample): `generateSms` does *not* format every
non-`"ihned"` pickup time as HH:MM: a pickup time that does not parse as a
date (`Date` parse = `NaN`, modelled by the parser returning `none`) is
rendered verbatim, and the rendered text `"later"` is not of the form
`HH:MM` for any hour/minute pair. -/
theorem generateSms_hhmm_counterexample :
    generateSms { parse := fun _ => none, hours := fun _ => 0, minutes := fun _ => 0 }
      { stops := ["A", "B"], customerName := "Jan", customerPhone := "777123456",
        passengers := 2, pickupTime := "later", notes := none } (fun k => k)
      = "sms.route: 1. A, 2. B. sms.name: Jan, sms.phone: 777123456, sms.passengers: 2, sms.pickupTime: later"
    ∧ formatPickupTime { parse := fun _ => none, hours := fun _ => 0, minutes := fun _ => 0 }
        (fun k => k) "later" = "later"
    ∧ ((List.range 24).all fun h => (List.range 60).all fun m =>
        !(pad2 h ++ ":" ++ pad2 m == "later")) = true := by
  refine ⟨by decide, by decide, by decide⟩

/-- C8 (amended): `generateSms` renders the pickup time as the localized
as-soon-as-possible phrase when `pickupTime` is the sentinel `"ihned"`;
for every other pickup time that is non-empty and parses to a valid
timestamp it renders the zero-padded HH:MM of that timestamp; an empty or
unparseable pickup time is rendered verbatim. -/
theorem generateSms_pickup_time (d : DateEnv) (t : String → String) (ride : RideRequest) :
    (ride.pickupTime = "ihned" → generateSms d ride t = smsBody ride t (t "sms.pickupASAP"))
    ∧ (∀ ts : ℤ, ride.pickupTime ≠ "ihned" → ride.pickupTime ≠ "" →
        d.parse ride.pickupTime = some ts →
        generateSms d ride t =
          smsBody ride t (pad2 (d.hours ts) ++ ":" ++ pad2 (d.minutes ts)))
    ∧ (ride.pickupTime ≠ "ihned" →
        (ride.pickupTime = "" ∨ d.parse ride.pickupTime = none) →
        generateSms d ride t = smsBody ride t ride.pickupTime) := by
  refine ⟨?_, ?_, ?_⟩
  · intro h
    simp [generateSms, formatPickupTime, h]
  · intro ts h1 h2 h3
    simp [generateSms, formatPickupTime, h1, h2, h3]
  · intro h1 h2
    rcases h2 with h2 | h2
    · simp [generateSms, formatPickupTime, h1, h2]
    · by_cases he : ride.pickupTime = ""
      · simp [generateSms, formatPickupTime, h1, he]
      · simp [generateSms, formatPickupTime, h1, he, h2]

/-- C8 (witness): a parseable timestamp is rendered as zero-padded 07:05,
and the sentinel `"ihned"` as the (identity-translated) localized
phrase. -/
theorem generateSms_pickup_time_witness :
    generateSms
      { parse := fun s => if s == "2024-05-01T07:05:00" then some 1714540000 else none,
        hours := fun _ => 7, minutes := fun _ => 5 }
      { stops := ["A"], customerName := "Eva", customerPhone := "601602603",
        passengers := 1, pickupTime := "2024-05-01T07:05:00", notes := none } (fun k => k)
      = smsBody
          { stops := ["A"], customerName := "Eva", customerPhone := "601602603",
            passengers := 1, pickupTime := "2024-05-01T07:05:00", notes := none }
          (fun k => k) "07:05"
    ∧ generateSms { parse := fun _ => none, hours := fun _ => 0, minutes := fun _ => 0 }
      { stops := ["A"], customerName := "Eva", customerPhone := "601602603",
        passengers := 1, pickupTime := "ihned", notes := none } (fun k => k)
      = smsBody
          { stops := ["A"], customerName := "Eva", customerPhone := "601602603",
            passengers := 1, pickupTime := "ihned", notes := none }
          (fun k => k) "sms.pickupASAP" := by
  constructor
  · have h := (generateSms_pickup_time
      { parse := fun s => if s == "2024-05-01T07:05:00" then some 1714540000 else none,
        hours := fun _ => 7, minutes := fun _ => 5 }
      (fun k => k)
      { stops := ["A"], customerName := "Eva", customerPhone := "601602603",
        passengers := 1, pickupTime := "2024-05-01T07:05:00", notes := none }).2.1
      1714540000 (by decide) (by decide) (by decide)
    exact h
  · exact (generateSms_pickup_time
      { parse := fun _ => none, hours := fun _ => 0, minutes := fun _ => 0 }
      (fun k => k)
      { stops := ["A"], customerName := "Eva", customerPhone := "601602603",
        passengers := 1, pickupTime := "ihned", notes := none }).1 rfl

/-- C9: for the WhatsApp app, `generateShareLink` strips all whitespace
from the phone number, prefixes `420` unless the cleaned number already
starts with `420`, and embeds the result in the `wa.me` URL; the embedded
number always starts with `420`. -/
theorem generateShareLink_whatsapp_420 (enc : String → String) (phone text : String) :
    generateShareLink enc MessagingApp.whatsapp phone text =
      "https://wa.me/" ++
        (if jsStartsWith (removeJsWhitespace phone) "420" then removeJsWhitespace phone
         else "420" ++ removeJsWhitespace phone) ++ "?text=" ++ enc text
    ∧ jsStartsWith
        (if jsStartsWith (removeJsWhitespace phone) "420" then removeJsWhitespace phone
         else "420" ++ removeJsWhitespace phone) "420" = true := by
  constructor
  · rfl
  · by_cases h : jsStartsWith (removeJsWhitespace phone) "420" = true
    · rw [if_pos h]
      exact h
    · rw [if_neg h]
      show charsHasPref ("420" ++ removeJsWhitespace phone).data "420".data = true
      rw [String.data_append]
      show charsHasPref ('4' :: '2' :: '0' :: (removeJsWhitespace phone).data)
        ['4', '2', '0'] = true
      simp [charsHasPref]

/-- `"" ++ s = s` for strings. -/
theorem str_empty_append (s : String) : "" ++ s = s := by
  apply String.ext
  rw [String.data_append]
  rfl

/-- `joinSlash` of a list with one appended element. -/
theorem joinSlash_append_singleton :
    ∀ (xs : List String) (y : String),
      joinSlash (xs ++ [y]) =
        (if 0 < xs.length then joinSlash xs ++ "/" else "") ++ y := by
  intro xs
  induction xs with
  | nil =>
    intro y
    simp [joinSlash, str_empty_append]
  | cons a tl ih =>
    intro y
    cases tl with
    | nil =>
      simp [joinSlash, String.append_assoc]
    | cons b tl2 =>
      have h1 : joinSlash ((a :: b :: tl2) ++ [y]) =
          a ++ "/" ++ joinSlash ((b :: tl2) ++ [y]) := rfl
      rw [h1, ih y, if_pos (by simp)]
      have h2 : joinSlash (a :: b :: tl2) = a ++ "/" ++ joinSlash (b :: tl2) := rfl
      rw [if_pos (by simp), h2]
      simp [String.append_assoc]

/-- C10: `generateNavigationUrl` falls back to the fixed Google Maps URL
when the driver location is empty or there are no stops; otherwise it is
the directions URL whose path is the URI-encoded driver location followed
by every stop in order (the last being the final destination). -/
theorem generateNavigationUrl_spec (enc : String → String) (driverLocation : String)
    (stops : List String) :
    ((driverLocation = "" ∨ stops = []) →
      generateNavigationUrl enc driverLocation stops = "https://maps.google.com")
    ∧ (driverLocation ≠ "" → stops ≠ [] →
      generateNavigationUrl enc driverLocation stops =
        "https://www.google.com/maps/dir/" ++
          joinSlash ((driverLocation :: stops).map enc)) := by
  constructor
  · intro h
    rcases h with h | h
    · simp [generateNavigationUrl, h]
    · simp [generateNavigationUrl, h]
  · intro h1 h2
    have hlast : stops.dropLast ++ [stops.getLastD ""] = stops := by
      obtain ⟨a, tl, rfl⟩ := List.exists_cons_of_ne_nil h2
      rw [List.getLastD_cons, ← List.getLast_eq_getLastD a tl (by simp)]
      exact List.dropLast_concat_getLast (by simp)
    have hinner :
        (if 0 < stops.dropLast.length then joinSlash (stops.dropLast.map enc) ++ "/"
         else "") ++ enc (stops.getLastD "") = joinSlash (stops.map enc) := by
      have h := joinSlash_append_singleton (stops.dropLast.map enc) (enc (stops.getLastD ""))
      rw [List.length_map,
        show [enc (stops.getLastD "")] = List.map enc [stops.getLastD ""] from rfl,
        ← List.map_append, hlast] at h
      exact h.symm
    obtain ⟨a, tl, rfl⟩ := List.exists_cons_of_ne_nil h2
    have hcondneg : ¬ ((decide (driverLocation = "") || (a :: tl).isEmpty) = true) := by
      simp [h1]
    simp only [generateNavigationUrl, if_neg hcondneg]
    rw [String.append_assoc, String.append_assoc, String.append_assoc, hinner]
    have hjoin : joinSlash ((driverLocation :: a :: tl).map enc) =
        enc driverLocation ++ "/" ++ joinSlash ((a :: tl).map enc) := rfl
    rw [hjoin]
    simp [String.append_assoc]

/-- C10 (witness): driver location "D" with stops ["A", "B"] yields the
directions URL listing D, A, B in order (identity encoding). -/
theorem generateNavigationUrl_spec_witness :
    generateNavigationUrl (fun s => s) "D" ["A", "B"] =
      "https://www.google.com/maps/dir/" ++ joinSlash ["D", "A", "B"] := by
  have h := (generateNavigationUrl_spec (fun s => s) "D" ["A", "B"]).2
    (by decide) (by decide)
  simpa using h

/-! ## The nearest-neighbor route optimizer -/

/-- The inner-scan fold only ever records an unvisited index below
`n` as the nearest point. -/
theorem nnScanFold_inv (matrix : List (List JsNum)) (lastPoint : Nat)
    (visited : List Nat) (n : Nat) :
    ∀ (l : List Nat) (acc : Option Nat × JsNum),
      (∀ i ∈ l, i < n) →
      (∀ q, acc.1 = some q → q < n ∧ q ∉ visited) →
      ∀ p, (l.foldl (nnScanFold matrix lastPoint visited) acc).1 = some p →
        p < n ∧ p ∉ visited := by
  intro l
  induction l with
  | nil =>
    intro acc _ hacc p hp
    exact hacc p hp
  | cons i tl ih =>
    intro acc hl hacc p hp
    rw [List.foldl_cons] at hp
    refine ih _ (fun j hj => hl j (by simp [hj])) ?_ p hp
    intro q hq
    unfold nnScanFold at hq
    by_cases hvis : visited.contains i = true
    · rw [if_pos hvis] at hq
      exact hacc q hq
    · rw [if_neg hvis] at hq
      by_cases hlt : JsNum.ltb ((matrix.getD lastPoint []).getD i JsNum.posInf) acc.2 = true
      · rw [if_pos hlt] at hq
        simp only [Option.some.injEq] at hq
        subst hq
        refine ⟨hl i (by simp), ?_⟩
        intro hmem
        exact hvis (by simpa [List.contains] using hmem)
      · rw [if_neg hlt] at hq
        exact hacc q hq

/-- When the nearest-neighbor scan finds a point, it is an unvisited index
below `numPoints`. -/
theorem nnStep_some (matrix : List (List JsNum)) (lastPoint : Nat)
    (visited : List Nat) (n p : Nat)
    (h : nnStep matrix lastPoint visited n = some p) :
    p < n ∧ p ∉ visited := by
  unfold nnStep at h
  exact nnScanFold_inv matrix lastPoint visited n (List.range n) (none, JsNum.posInf)
    (fun i hi => List.mem_range.mp hi) (by intro q hq; simp at hq) p h

/-- Invariant of the nearest-neighbor `while` loop: starting from a
non-empty duplicate-free path of indices below `n`, mirrored by the
visited set, and with enough fuel, the loop returns a permutation of
`0..n-1` whose head is the path's head — through both the greedy branch
and the append-the-rest fallback branch. -/
theorem nnLoop_props (matrix : List (List JsNum)) (n : Nat) :
    ∀ (fuel : Nat) (path visited : List Nat) (lastPoint : Nat),
      (∀ i : Nat, i ∈ visited ↔ i ∈ path) →
      path.Nodup →
      (∀ x ∈ path, x < n) →
      n ≤ fuel + path.length →
      path ≠ [] →
      (nnLoop matrix n fuel path visited lastPoint).Perm (List.range n) ∧
      (nnLoop matrix n fuel path visited lastPoint).head? = path.head? := by
  intro fuel
  induction fuel with
  | zero =>
    intro path visited lastPoint hv hnd hlt hfuel hne
    constructor
    · have hsub : path ⊆ List.range n := fun x hx => List.mem_range.mpr (hlt x hx)
      refine (List.subperm_of_subset hnd hsub).perm_of_length_le ?_
      simpa using hfuel
    · rfl
  | succ fuel ih =>
    intro path visited lastPoint hv hnd hlt hfuel hne
    rw [nnLoop]
    by_cases hlen : path.length < n
    · rw [if_pos hlen]
      cases hstep : nnStep matrix lastPoint visited n with
      | some p =>
        obtain ⟨hpn, hpv⟩ := nnStep_some _ _ _ _ _ hstep
        have hpnotmem : p ∉ path := fun hmem => hpv ((hv p).mpr hmem)
        have hv' : ∀ i : Nat, i ∈ p :: visited ↔ i ∈ path ++ [p] := by
          intro i
          simp [hv i, or_comm]
        have hnd' : (path ++ [p]).Nodup := by
          simp [List.nodup_append, hnd, hpnotmem]
        have hlt' : ∀ x ∈ path ++ [p], x < n := by
          intro x hx
          rcases List.mem_append.mp hx with hx | hx
          · exact hlt x hx
          · simp only [List.mem_singleton] at hx
            subst hx
            exact hpn
        have hfuel' : n ≤ fuel + (path ++ [p]).length := by
          simp only [List.length_append, List.length_cons, List.length_nil]
          omega
        obtain ⟨hperm, hhead⟩ := ih (path ++ [p]) (p :: visited) p hv' hnd' hlt' hfuel'
          (by simp)
        refine ⟨hperm, ?_⟩
        rw [hhead]
        obtain ⟨a, tl, rfl⟩ := List.exists_cons_of_ne_nil hne
        rfl
      | none =>
        have hfilter : (List.range n).filter (fun i => !visited.contains i) =
            (List.range n).filter (fun i => decide (i ∉ path)) := by
          apply List.filter_congr
          intro i _
          simp [List.contains, hv i]
        constructor
        · rw [hfilter]
          have h1 : ((List.range n).filter (fun i => decide (i ∈ path))).Perm path := by
            refine (List.perm_ext_iff_of_nodup
              ((List.nodup_range n).filter _) hnd).mpr ?_
            intro a
            simp only [List.mem_filter, List.mem_range, decide_eq_true_eq]
            exact ⟨fun h => h.2, fun h => ⟨hlt a h, h⟩⟩
          have h2 := List.filter_append_perm (fun i => decide (i ∈ path)) (List.range n)
          have h3 : (List.range n).filter (fun i => !decide (i ∈ path)) =
              (List.range n).filter (fun i => decide (i ∉ path)) := by
            apply List.filter_congr
            intro i _
            simp
          rw [h3] at h2
          exact List.Perm.trans (h1.symm.append_right _) h2
        · obtain ⟨a, tl, rfl⟩ := List.exists_cons_of_ne_nil hne
          rfl
    · rw [if_neg hlen]
      constructor
      · have hsub : path ⊆ List.range n := fun x hx => List.mem_range.mpr (hlt x hx)
        refine (List.subperm_of_subset hnd hsub).perm_of_length_le ?_
        simp only [List.length_range]
        omega
      · rfl

/-- C5: for every square travel matrix, the nearest-neighbor reordering is
a permutation of the input indices `0..n-1` (through both the greedy
branch and the unreachable-point fallback branch), its first element is
the pickup index 0 whenever the matrix is non-empty, and matrices with
fewer than 3 rows are returned in identity order.  (The squareness
hypothesis mirrors the claim's quantification; the proof shows the
property holds for any matrix shape, since out-of-range reads never win a
`<` comparison.) -/
theorem optimizeRouteNearestNeighbor_spec (m : List (List JsNum))
    (hsq : ∀ row ∈ m, row.length = m.length) :
    (optimizeRouteNearestNeighbor m).Perm (List.range m.length)
    ∧ (0 < m.length → (optimizeRouteNearestNeighbor m).head? = some 0)
    ∧ (m.length < 3 → optimizeRouteNearestNeighbor m = List.range m.length) := by
  by_cases h3 : m.length < 3
  · unfold optimizeRouteNearestNeighbor
    rw [if_pos h3]
    refine ⟨List.Perm.refl _, ?_, fun _ => rfl⟩
    intro hpos
    obtain ⟨k, hk⟩ := Nat.exists_eq_succ_of_ne_zero (Nat.pos_iff_ne_zero.mp hpos)
    rw [hk, List.range_succ_eq_map]
    rfl
  · unfold optimizeRouteNearestNeighbor
    rw [if_neg h3]
    have hlt0 : ∀ x ∈ ([0] : List Nat), x < m.length := by
      intro x hx
      simp only [List.mem_singleton] at hx
      subst hx
      omega
    have h := nnLoop_props m m.length m.length [0] [0] 0
      (fun i => Iff.rfl) (by simp) hlt0 (by simp) (by simp)
    exact ⟨h.1, fun _ => h.2, fun hc => absurd hc h3⟩

/-- C5 (witness): a 3-by-3 finite matrix exercising the greedy branch
(order 0, 2, 1) and a 3-by-3 all-`Infinity` matrix exercising the
unreachable-point fallback branch (remaining stops appended in original
order): both are permutations of `0..2` starting at 0. -/
theorem optimizeRouteNearestNeighbor_spec_witness :
    ((optimizeRouteNearestNeighbor
        [[JsNum.num 0, JsNum.num 10, JsNum.num 2],
         [JsNum.num 10, JsNum.num 0, JsNum.num 3],
         [JsNum.num 2, JsNum.num 3, JsNum.num 0]]).Perm (List.range 3)
      ∧ optimizeRouteNearestNeighbor
        [[JsNum.num 0, JsNum.num 10, JsNum.num 2],
         [JsNum.num 10, JsNum.num 0, JsNum.num 3],
         [JsNum.num 2, JsNum.num 3, JsNum.num 0]] = [0, 2, 1])
    ∧ ((optimizeRouteNearestNeighbor
        [[JsNum.posInf, JsNum.posInf, JsNum.posInf],
         [JsNum.posInf, JsNum.posInf, JsNum.posInf],
         [JsNum.posInf, JsNum.posInf, JsNum.posInf]]).Perm (List.range 3)
      ∧ optimizeRouteNearestNeighbor
        [[JsNum.posInf, JsNum.posInf, JsNum.posInf],
         [JsNum.posInf, JsNum.posInf, JsNum.posInf],
         [JsNum.posInf, JsNum.posInf, JsNum.posInf]] = [0, 1, 2]) := by
  refine ⟨⟨?_, by decide⟩, ⟨?_, by decide⟩⟩
  · exact (optimizeRouteNearestNeighbor_spec
      [[JsNum.num 0, JsNum.num 10, JsNum.num 2],
       [JsNum.num 10, JsNum.num 0, JsNum.num 3],
       [JsNum.num 2, JsNum.num 3, JsNum.num 0]] (by decide)).1
  · exact (optimizeRouteNearestNeighbor_spec
      [[JsNum.posInf, JsNum.posInf, JsNum.posInf],
       [JsNum.posInf, JsNum.posInf, JsNum.posInf],
       [JsNum.posInf, JsNum.posInf, JsNum.posInf]] (by decide)).1

/-! ## The assignment pipeline -/

/-- `geocodeAll` preserves length on success. -/
theorem geocodeAll_ok_length (g : String → Option Coord) :
    ∀ (l : List String) (cs : List Coord),
      geocodeAll g l = Except.ok cs → cs.length = l.length := by
  intro l
  induction l with
  | nil =>
    intro cs h
    simp only [geocodeAll, Except.ok.injEq] at h
    subst h
    rfl
  | cons a tl ih =>
    intro cs h
    unfold geocodeAll at h
    cases hg : g a with
    | none =>
      rw [hg] at h
      simp at h
    | some c =>
      rw [hg] at h
      cases hrec : geocodeAll g tl with
      | error e =>
        rw [hrec] at h
        simp at h
      | ok cs' =>
        rw [hrec] at h
        simp only [Except.ok.injEq] at h
        subst h
        simp [ih cs' hrec]

/-- Every capacity-qualified alternative satisfies the capacity bound. -/
theorem suitableOf_mem (req : RideRequest) (alts : List AssignmentAlternative)
    (alt : AssignmentAlternative) (h : alt ∈ suitableOf req alts) :
    req.passengers ≤ alt.vehicle.capacity := by
  unfold suitableOf at h
  simpa using List.of_mem_filter h

/-- A successful AI choice returns an element of the suitable list
(the collaborator's pick when its id is found, the head otherwise). -/
theorem chooseBestVehicleWithAI_mem (env : Env) (l : List AssignmentAlternative)
    (alt : AssignmentAlternative) (h : chooseBestVehicleWithAI env l = some alt) :
    alt ∈ l := by
  unfold chooseBestVehicleWithAI at h
  cases hai : env.aiChoice l with
  | none =>
    rw [hai] at h
    simp at h
  | some cid =>
    simp only [hai] at h
    cases hf : l.find? (fun a => a.vehicle.id == cid) with
    | some a =>
      simp only [hf, Option.some.injEq] at h
      subst h
      exact List.mem_of_find?_eq_some hf
    | none =>
      simp only [hf] at h
      exact List.mem_of_mem_head? (by rw [h]; rfl)

/-- A winning result's vehicle is the vehicle of a suitable alternative. -/
theorem selectWinner_ok_vehicle (env : Env) (ai : Bool) (req : RideRequest)
    (sms : String) (os : Option (List String)) (dur : ℤ) (dist : ℚ)
    (suitable : List AssignmentAlternative) (r : AssignmentResultData)
    (h : selectWinner env ai req sms os dur dist suitable = DispatchOutcome.ok r) :
    ∃ alt ∈ suitable, r.vehicle = alt.vehicle := by
  unfold selectWinner at h
  cases suitable with
  | nil => simp at h
  | cons b rest =>
    cases ai with
    | false =>
      simp only [Bool.false_eq_true, if_false, DispatchOutcome.ok.injEq] at h
      subst h
      exact ⟨b, by simp, rfl⟩
    | true =>
      simp only [if_true] at h
      cases hch : chooseBestVehicleWithAI env (b :: rest) with
      | none =>
        rw [hch] at h
        simp at h
      | some best =>
        rw [hch] at h
        simp only [DispatchOutcome.ok.injEq] at h
        subst h
        exact ⟨best, chooseBestVehicleWithAI_mem env _ best hch, rfl⟩

/-- Every ranked alternative's vehicle comes from the ranked vehicle
list. -/
theorem rankVehicles_vehicle_mem (env : Env) (req : RideRequest)
    (vehicles : List Vehicle) (vcs : List Coord) (pickup : Coord)
    (fd : String) (dist : ℚ) (tariff : Tariff) (alt : AssignmentAlternative)
    (h : alt ∈ rankVehicles env req vehicles vcs pickup fd dist tariff) :
    alt.vehicle ∈ vehicles := by
  unfold rankVehicles at h
  rw [List.mem_mergeSort] at h
  obtain ⟨p, hp, rfl⟩ := List.mem_map.mp h
  exact (List.of_mem_zip hp).1

/-- The ranked alternatives are sorted non-decreasing by total ETA. -/
theorem rankVehicles_sorted (env : Env) (req : RideRequest)
    (vehicles : List Vehicle) (vcs : List Coord) (pickup : Coord)
    (fd : String) (dist : ℚ) (tariff : Tariff) :
    (rankVehicles env req vehicles vcs pickup fd dist tariff).Pairwise
      (fun a b => a.eta ≤ b.eta) := by
  unfold rankVehicles
  refine List.Pairwise.imp (fun hab => of_decide_eq_true hab)
    (List.sorted_mergeSort ?_ ?_ _)
  · intro a b c hab hbc
    exact decide_eq_true (le_trans (of_decide_eq_true hab) (of_decide_eq_true hbc))
  · intro a b
    rcases le_total a.eta b.eta with h | h
    · simp [h]
    · simp [h]

/-- Pairwise relations on first components transfer to a zip. -/
theorem pairwise_fst_zip {α β : Type} (R : α → α → Prop) :
    ∀ (l1 : List α) (l2 : List β), l1.Pairwise R →
      (l1.zip l2).Pairwise (fun p q => R p.1 q.1) := by
  intro l1
  induction l1 with
  | nil =>
    intro l2 _
    simp
  | cons a tl ih =>
    intro l2 h
    cases l2 with
    | nil => simp
    | cons b tl2 =>
      rw [List.zip_cons_cons, List.pairwise_cons]
      rw [List.pairwise_cons] at h
      constructor
      · intro p hp
        exact h.1 p.1 (List.of_mem_zip hp).1
      · exact ih tl2 h.2

/-- Pairwise-distinct vehicle ids transfer to the ranked alternatives. -/
theorem rankVehicles_id_pairwise (env : Env) (req : RideRequest)
    (vehicles : List Vehicle) (vcs : List Coord) (pickup : Coord)
    (fd : String) (dist : ℚ) (tariff : Tariff)
    (hid : vehicles.Pairwise (fun a b => a.id ≠ b.id)) :
    (rankVehicles env req vehicles vcs pickup fd dist tariff).Pairwise
      (fun a b => a.vehicle.id ≠ b.vehicle.id) := by
  unfold rankVehicles
  have hperm := List.mergeSort_perm
    ((vehicles.zip (vcs.map (fun coords => env.route [coords, pickup]))).map
      (mkAlternative env req fd dist tariff))
    (fun a b => decide (a.eta ≤ b.eta))
  refine (hperm.pairwise_iff (fun hxy => Ne.symm hxy)).mpr ?_
  rw [List.pairwise_map]
  exact pairwise_fst_zip (fun a b => a.id ≠ b.id) vehicles _ hid

/-- Filtering out the winner's vehicle id removes exactly the winner when
the alternatives carry pairwise-distinct vehicle ids. -/
theorem filter_ne_winner (w : AssignmentAlternative) (l1 l2 : List AssignmentAlternative)
    (hpw : (l1 ++ w :: l2).Pairwise (fun a b => a.vehicle.id ≠ b.vehicle.id)) :
    (l1 ++ w :: l2).filter (fun v => !(v.vehicle.id == w.vehicle.id)) = l1 ++ l2 := by
  rw [List.pairwise_append] at hpw
  obtain ⟨hp1, hp2, hcross⟩ := hpw
  rw [List.pairwise_cons] at hp2
  rw [List.filter_append, List.filter_cons]
  have hw : (!(w.vehicle.id == w.vehicle.id)) = false := by simp
  rw [hw]
  simp only [Bool.false_eq_true, if_false]
  have h1 : l1.filter (fun v => !(v.vehicle.id == w.vehicle.id)) = l1 :=
    List.filter_eq_self.mpr (fun x hx => by
      have hne := hcross x hx w (by simp)
      simp [hne])
  have h2 : l2.filter (fun v => !(v.vehicle.id == w.vehicle.id)) = l2 :=
    List.filter_eq_self.mpr (fun x hx => by
      have hne := hp2.1 x hx
      simp [Ne.symm hne])
  rw [h1, h2]

/-- Under a present API key (when needed), a non-empty in-service fleet,
successful geocoding of all stops and vehicle locations, and a successful
main route, `findBestVehicle` reaches the selection stage applied to the
capacity-qualified ETA-sorted list. -/
theorem findBestVehicle_reaches_select (env : Env) (req : RideRequest)
    (vehicles : List Vehicle) (ai : Bool) (tariff : Tariff) (optimize : Bool)
    (c : Coord) (cs' vcs : List Coord) (main : OsrmRoute)
    (hkey : ai = true → env.hasApiKey = true)
    (hsvc : vehicles.filter isInService ≠ [])
    (hg1 : geocodeAll env.geocode req.stops = Except.ok (c :: cs'))
    (hg2 : geocodeAll env.geocode ((vehicles.filter isInService).map (fun v => v.location)) =
      Except.ok vcs)
    (hmain : env.route (applyOptimization env req ai optimize (c :: cs')).1 = some main) :
    findBestVehicle env req vehicles ai tariff optimize =
      selectWinner env ai req
        (smsOf env req (applyOptimization env req ai optimize (c :: cs')).2)
        (applyOptimization env req ai optimize (c :: cs')).2
        (jsRound (main.duration / 60)) (main.distance / 1000)
        (dispatchSuitable env req vehicles ai optimize tariff (c :: cs') vcs c main) := by
  have hk : (ai && !env.hasApiKey) = false := by
    cases ai
    · rfl
    · simp [hkey rfl]
  have hie : (vehicles.filter isInService).isEmpty = false := by
    cases hfil : vehicles.filter isInService with
    | nil => exact absurd hfil hsvc
    | cons x xs => rfl
  simp only [findBestVehicle, hk, Bool.false_eq_true, if_false, hie, hg1, hg2, hmain,
    List.head?_cons, dispatchSuitable]

/-- Same hypotheses, but the routing collaborator returns no route for the
(possibly reordered) full stop sequence: `findBestVehicle` aborts with the
main-route error. -/
theorem findBestVehicle_main_route_error (env : Env) (req : RideRequest)
    (vehicles : List Vehicle) (ai : Bool) (tariff : Tariff) (optimize : Bool)
    (cs vcs : List Coord)
    (hkey : ai = true → env.hasApiKey = true)
    (hsvc : vehicles.filter isInService ≠ [])
    (hg1 : geocodeAll env.geocode req.stops = Except.ok cs)
    (hg2 : geocodeAll env.geocode ((vehicles.filter isInService).map (fun v => v.location)) =
      Except.ok vcs)
    (hmain : env.route (applyOptimization env req ai optimize cs).1 = none) :
    findBestVehicle env req vehicles ai tariff optimize =
      DispatchOutcome.err "error.mainRouteCalculationFailed" none := by
  have hk : (ai && !env.hasApiKey) = false := by
    cases ai
    · rfl
    · simp [hkey rfl]
  have hie : (vehicles.filter isInService).isEmpty = false := by
    cases hfil : vehicles.filter isInService with
    | nil => exact absurd hfil hsvc
    | cons x xs => rfl
  simp only [findBestVehicle, hk, Bool.false_eq_true, if_false, hie, hg1, hg2, hmain]

/-- The non-delegated selection: the first (lowest-ETA) suitable vehicle
wins and the rest become the alternatives. -/
theorem selectWinner_noai_ok (env : Env) (req : RideRequest) (sms : String)
    (os : Option (List String)) (dur : ℤ) (dist : ℚ)
    (b : AssignmentAlternative) (rest : List AssignmentAlternative) :
    selectWinner env false req sms os dur dist (b :: rest) =
      DispatchOutcome.ok
        ⟨b.vehicle, b.eta, sms, b.estimatedPrice, b.waitTime, dur, dist, rest, req, os⟩ := by
  unfold selectWinner
  simp only [Bool.false_eq_true, if_false]

/-- The delegated selection: the successfully chosen alternative wins and
the alternatives are the suitable list filtered by its vehicle id. -/
theorem selectWinner_ai_ok (env : Env) (req : RideRequest) (sms : String)
    (os : Option (List String)) (dur : ℤ) (dist : ℚ)
    (b : AssignmentAlternative) (rest : List AssignmentAlternative)
    (w : AssignmentAlternative)
    (hch : chooseBestVehicleWithAI env (b :: rest) = some w) :
    selectWinner env true req sms os dur dist (b :: rest) =
      DispatchOutcome.ok
        ⟨w.vehicle, w.eta, sms, w.estimatedPrice, w.waitTime, dur, dist,
          (b :: rest).filter (fun v => !(v.vehicle.id == w.vehicle.id)), req, os⟩ := by
  unfold selectWinner
  simp only [if_true, hch]

/-- C1: every winner returned by `findBestVehicle` has capacity at least
the requested passenger count; and when the pipeline reaches the capacity
filter (API key present when needed, some vehicle in service, geocoding
and the main route successful) with no in-service vehicle of sufficient
capacity, the result is the insufficient-capacity error carrying the
requested passenger count as its detail string, and no winner. -/
theorem findBestVehicle_capacity (env : Env) (req : RideRequest)
    (vehicles : List Vehicle) (ai : Bool) (tariff : Tariff) (optimize : Bool) :
    (∀ r, findBestVehicle env req vehicles ai tariff optimize = DispatchOutcome.ok r →
      req.passengers ≤ r.vehicle.capacity)
    ∧ (∀ (c : Coord) (cs' vcs : List Coord) (main : OsrmRoute),
        (ai = true → env.hasApiKey = true) →
        vehicles.filter isInService ≠ [] →
        geocodeAll env.geocode req.stops = Except.ok (c :: cs') →
        geocodeAll env.geocode ((vehicles.filter isInService).map (fun v => v.location)) =
          Except.ok vcs →
        env.route (applyOptimization env req ai optimize (c :: cs')).1 = some main →
        (∀ v ∈ vehicles.filter isInService, v.capacity < req.passengers) →
        findBestVehicle env req vehicles ai tariff optimize =
          DispatchOutcome.err "error.insufficientCapacity"
            (some (toString req.passengers))) := by
  constructor
  · intro r h
    simp only [findBestVehicle] at h
    split at h
    · simp at h
    split at h
    · simp at h
    split at h
    · simp at h
    split at h
    · simp at h
    split at h
    · simp at h
    split at h
    · simp at h
    obtain ⟨alt, hmem, hveq⟩ := selectWinner_ok_vehicle _ _ _ _ _ _ _ _ _ h
    rw [hveq]
    exact suitableOf_mem _ _ _ hmem
  · intro c cs' vcs main hkey hsvc hg1 hg2 hmain hcap
    rw [findBestVehicle_reaches_select env req vehicles ai tariff optimize c cs' vcs main
      hkey hsvc hg1 hg2 hmain]
    have hempty : dispatchSuitable env req vehicles ai optimize tariff (c :: cs') vcs c main
        = [] := by
      unfold dispatchSuitable suitableOf
      rw [List.filter_eq_nil_iff]
      intro alt halt
      have hv := rankVehicles_vehicle_mem _ _ _ _ _ _ _ _ _ halt
      have hc := hcap alt.vehicle hv
      simp only [decide_eq_true_eq]
      omega
    rw [hempty]
    rfl

/-- C1 (witness): a two-stop request for 3 passengers against a single
in-service car of capacity 1 (all geocoding and the main route succeed)
yields the insufficient-capacity error carrying "3". -/
theorem findBestVehicle_capacity_witness :
    findBestVehicle
      { geocode := fun s =>
          if s == "P" then some ⟨0, 0⟩
          else if s == "D" then some ⟨1, 1⟩
          else if s == "V" then some ⟨2, 2⟩ else none,
        route := fun l => if l == [⟨0, 0⟩, ⟨1, 1⟩] then some ⟨600, 5000⟩ else none,
        aiOrder := fun _ _ => none,
        aiChoice := fun _ => none,
        hasApiKey := false,
        now := 0,
        date := { parse := fun _ => none, hours := fun _ => 0, minutes := fun _ => 0 } }
      { stops := ["P", "D"], customerName := "K", customerPhone := "777",
        passengers := 3, pickupTime := "ihned", notes := none }
      [{ id := 1, name := "V1", licensePlate := "B1", type := VehicleType.car,
         status := VehicleStatus.available, location := "V", capacity := 1, freeAt := none }]
      false
      { startingFee := 0, pricePerKmCar := 0, pricePerKmVan := 0, flatRates := [] }
      false
      = DispatchOutcome.err "error.insufficientCapacity" (some (toString 3)) := by
  exact (findBestVehicle_capacity _ _ _ _ _ _).2 ⟨0, 0⟩ [⟨1, 1⟩] [⟨2, 2⟩] ⟨600, 5000⟩
    (by decide) (by decide) rfl rfl (by decide) (by decide)

/-- C2 (amended): for every successful run of `findBestVehicle` reaching
the selection stage — in both the delegated (AI) and non-delegated modes,
the AI collaborator answering in the delegated mode — and provided the
in-service vehicles carry pairwise-distinct ids, the winner is an element
of the capacity-qualified ETA-sorted list, the alternatives are exactly
that list minus the winner preserving its order, and both the list and
the alternatives are sorted non-decreasing by total ETA. -/
theorem findBestVehicle_alternatives (env : Env) (req : RideRequest)
    (vehicles : List Vehicle) (ai : Bool) (tariff : Tariff) (optimize : Bool)
    (c : Coord) (cs' vcs : List Coord) (main : OsrmRoute)
    (hkey : ai = true → env.hasApiKey = true)
    (hid : (vehicles.filter isInService).Pairwise (fun a b => a.id ≠ b.id))
    (hg1 : geocodeAll env.geocode req.stops = Except.ok (c :: cs'))
    (hg2 : geocodeAll env.geocode ((vehicles.filter isInService).map (fun v => v.location)) =
      Except.ok vcs)
    (hmain : env.route (applyOptimization env req ai optimize (c :: cs')).1 = some main)
    (hsuit : dispatchSuitable env req vehicles ai optimize tariff (c :: cs') vcs c main ≠ [])
    (hchoice : ai = true → ∃ cid, env.aiChoice
      (dispatchSuitable env req vehicles ai optimize tariff (c :: cs') vcs c main) =
        some cid) :
    ∃ r w l1 l2,
      findBestVehicle env req vehicles ai tariff optimize = DispatchOutcome.ok r ∧
      dispatchSuitable env req vehicles ai optimize tariff (c :: cs') vcs c main =
        l1 ++ w :: l2 ∧
      r.vehicle = w.vehicle ∧
      r.alternatives = l1 ++ l2 ∧
      (dispatchSuitable env req vehicles ai optimize tariff (c :: cs') vcs c main).Pairwise
        (fun a b => a.eta ≤ b.eta) ∧
      r.alternatives.Pairwise (fun a b => a.eta ≤ b.eta) := by
  have hsvc : vehicles.filter isInService ≠ [] := by
    obtain ⟨b, rest, hbr⟩ := List.exists_cons_of_ne_nil hsuit
    have hb : b ∈ dispatchSuitable env req vehicles ai optimize tariff (c :: cs') vcs c main := by
      rw [hbr]
      simp
    unfold dispatchSuitable suitableOf at hb
    exact List.ne_nil_of_mem
      (rankVehicles_vehicle_mem _ _ _ _ _ _ _ _ _ (List.mem_filter.mp hb).1)
  rw [findBestVehicle_reaches_select env req vehicles ai tariff optimize c cs' vcs main
    hkey hsvc hg1 hg2 hmain]
  have hsort : (dispatchSuitable env req vehicles ai optimize tariff (c :: cs') vcs c
      main).Pairwise (fun a b => a.eta ≤ b.eta) := by
    unfold dispatchSuitable suitableOf
    exact List.Pairwise.filter _ (rankVehicles_sorted _ _ _ _ _ _ _ _)
  have hidsS : (dispatchSuitable env req vehicles ai optimize tariff (c :: cs') vcs c
      main).Pairwise (fun a b => a.vehicle.id ≠ b.vehicle.id) := by
    unfold dispatchSuitable suitableOf
    exact List.Pairwise.filter _ (rankVehicles_id_pairwise _ _ _ _ _ _ _ _ hid)
  obtain ⟨b, rest, hbr⟩ := List.exists_cons_of_ne_nil hsuit
  cases ai with
  | false =>
    rw [hbr]
    exact ⟨_, b, [], rest, selectWinner_noai_ok env req _ _ _ _ b rest, rfl, rfl, rfl,
      hbr ▸ hsort, (List.pairwise_cons.mp (hbr ▸ hsort)).2⟩
  | true =>
    obtain ⟨cid, hcid⟩ := hchoice rfl
    rw [hbr] at hcid
    have hw : ∃ w, chooseBestVehicleWithAI env (b :: rest) = some w := by
      unfold chooseBestVehicleWithAI
      rw [hcid]
      cases hf : (b :: rest).find? (fun a => a.vehicle.id == cid) with
      | some a => exact ⟨a, by simp [hf]⟩
      | none => exact ⟨b, by simp [hf]⟩
    obtain ⟨w, hch⟩ := hw
    have hwmem : w ∈ b :: rest := chooseBestVehicleWithAI_mem env _ w hch
    obtain ⟨l1, l2, hsplit⟩ := List.append_of_mem hwmem
    have hfil : (b :: rest).filter (fun v => !(v.vehicle.id == w.vehicle.id)) = l1 ++ l2 := by
      rw [hsplit]
      exact filter_ne_winner w l1 l2 (hsplit ▸ hbr ▸ hidsS)
    rw [hbr]
    refine ⟨_, w, l1, l2, selectWinner_ai_ok env req _ _ _ _ b rest w hch, hsplit, rfl,
      hfil, hbr ▸ hsort, ?_⟩
    have hs : (l1 ++ w :: l2).Pairwise (fun a b => a.eta ≤ b.eta) :=
      hsplit ▸ hbr ▸ hsort
    have halt : ((b :: rest).filter
        (fun v => !(v.vehicle.id == w.vehicle.id))).Pairwise (fun a b => a.eta ≤ b.eta) := by
      rw [hfil]
      exact List.Pairwise.sublist ((List.sublist_cons_self w l2).append_left l1) hs
    exact halt

/-- C2 (counterexample): in the delegated (AI) mode the alternatives are
the suitable list filtered by the winner's *vehicle id*, so with two
suitable vehicles sharing id 1 the filter drops both: the successful
result has 0 alternatives although the capacity-qualifying list has 2
entries (minus the winner would leave 1). -/
theorem findBestVehicle_alternatives_counterexample :
    (match findBestVehicle envDup reqPD [mkVeh 1 "A", mkVeh 1 "B"] true tariffZero false with
      | DispatchOutcome.ok r => some r.alternatives.length
      | DispatchOutcome.err _ _ => none) = some 0
    ∧ (dispatchSuitable envDup reqPD [mkVeh 1 "A", mkVeh 1 "B"] true false tariffZero
        [⟨0, 0⟩, ⟨1, 1⟩] [⟨2, 2⟩, ⟨3, 3⟩] ⟨0, 0⟩ ⟨600, 5000⟩).length = 2 := by
  have hS : dispatchSuitable envDup reqPD [mkVeh 1 "A", mkVeh 1 "B"] true false tariffZero
      [⟨0, 0⟩, ⟨1, 1⟩] [⟨2, 2⟩, ⟨3, 3⟩] ⟨0, 0⟩ ⟨600, 5000⟩
      = [mkAlternative envDup reqPD "D" ((5000 : ℚ) / 1000) tariffZero (mkVeh 1 "A", none),
         mkAlternative envDup reqPD "D" ((5000 : ℚ) / 1000) tariffZero (mkVeh 1 "B", none)] := by
    unfold dispatchSuitable suitableOf rankVehicles
    rw [List.mergeSort_of_sorted (by decide)]
    rfl
  constructor
  · rw [findBestVehicle_reaches_select envDup reqPD [mkVeh 1 "A", mkVeh 1 "B"] true tariffZero
      false ⟨0, 0⟩ [⟨1, 1⟩] [⟨2, 2⟩, ⟨3, 3⟩] ⟨600, 5000⟩ (fun _ => rfl) (by decide) rfl rfl
      (by decide), hS]
    have hch : chooseBestVehicleWithAI envDup
        [mkAlternative envDup reqPD "D" ((5000 : ℚ) / 1000) tariffZero (mkVeh 1 "A", none),
         mkAlternative envDup reqPD "D" ((5000 : ℚ) / 1000) tariffZero (mkVeh 1 "B", none)]
        = some (mkAlternative envDup reqPD "D" ((5000 : ℚ) / 1000) tariffZero
            (mkVeh 1 "A", none)) := rfl
    rw [selectWinner_ai_ok envDup reqPD _ _ _ _ _ _ _ hch]
    rfl
  · rw [hS]
    rfl

/-- C2 (witness): the amended theorem applied to a two-vehicle fleet with
distinct ids 1 and 2, once in non-delegated mode and once in delegated
mode (the AI answering id 2): both runs succeed with the alternatives
equal to the suitable list minus the winner, in sorted order. -/
theorem findBestVehicle_alternatives_witness :
    (∃ r w l1 l2,
      findBestVehicle envTie reqPD [mkVeh 1 "A", mkVeh 2 "B"] false tariffZero false =
        DispatchOutcome.ok r ∧
      dispatchSuitable envTie reqPD [mkVeh 1 "A", mkVeh 2 "B"] false false tariffZero
        [⟨0, 0⟩, ⟨1, 1⟩] [⟨2, 2⟩, ⟨3, 3⟩] ⟨0, 0⟩ ⟨600, 5000⟩ = l1 ++ w :: l2 ∧
      r.vehicle = w.vehicle ∧
      r.alternatives = l1 ++ l2 ∧
      (dispatchSuitable envTie reqPD [mkVeh 1 "A", mkVeh 2 "B"] false false tariffZero
        [⟨0, 0⟩, ⟨1, 1⟩] [⟨2, 2⟩, ⟨3, 3⟩] ⟨0, 0⟩ ⟨600, 5000⟩).Pairwise
        (fun a b => a.eta ≤ b.eta) ∧
      r.alternatives.Pairwise (fun a b => a.eta ≤ b.eta))
    ∧ (∃ r w l1 l2,
      findBestVehicle envTieAI reqPD [mkVeh 1 "A", mkVeh 2 "B"] true tariffZero false =
        DispatchOutcome.ok r ∧
      dispatchSuitable envTieAI reqPD [mkVeh 1 "A", mkVeh 2 "B"] true false tariffZero
        [⟨0, 0⟩, ⟨1, 1⟩] [⟨2, 2⟩, ⟨3, 3⟩] ⟨0, 0⟩ ⟨600, 5000⟩ = l1 ++ w :: l2 ∧
      r.vehicle = w.vehicle ∧
      r.alternatives = l1 ++ l2 ∧
      (dispatchSuitable envTieAI reqPD [mkVeh 1 "A", mkVeh 2 "B"] true false tariffZero
        [⟨0, 0⟩, ⟨1, 1⟩] [⟨2, 2⟩, ⟨3, 3⟩] ⟨0, 0⟩ ⟨600, 5000⟩).Pairwise
        (fun a b => a.eta ≤ b.eta) ∧
      r.alternatives.Pairwise (fun a b => a.eta ≤ b.eta)) := by
  constructor
  · have hS : dispatchSuitable envTie reqPD [mkVeh 1 "A", mkVeh 2 "B"] false false tariffZero
        [⟨0, 0⟩, ⟨1, 1⟩] [⟨2, 2⟩, ⟨3, 3⟩] ⟨0, 0⟩ ⟨600, 5000⟩
        = [mkAlternative envTie reqPD "D" ((5000 : ℚ) / 1000) tariffZero (mkVeh 1 "A", none),
           mkAlternative envTie reqPD "D" ((5000 : ℚ) / 1000) tariffZero (mkVeh 2 "B", none)] := by
      unfold dispatchSuitable suitableOf rankVehicles
      rw [List.mergeSort_of_sorted (by decide)]
      rfl
    exact findBestVehicle_alternatives envTie reqPD [mkVeh 1 "A", mkVeh 2 "B"] false tariffZero
      false ⟨0, 0⟩ [⟨1, 1⟩] [⟨2, 2⟩, ⟨3, 3⟩] ⟨600, 5000⟩
      (by decide) (by decide) rfl rfl (by decide) (by rw [hS]; simp)
      (by intro h; exact absurd h (by decide))
  · have hS : dispatchSuitable envTieAI reqPD [mkVeh 1 "A", mkVeh 2 "B"] true false tariffZero
        [⟨0, 0⟩, ⟨1, 1⟩] [⟨2, 2⟩, ⟨3, 3⟩] ⟨0, 0⟩ ⟨600, 5000⟩
        = [mkAlternative envTieAI reqPD "D" ((5000 : ℚ) / 1000) tariffZero (mkVeh 1 "A", none),
           mkAlternative envTieAI reqPD "D" ((5000 : ℚ) / 1000) tariffZero (mkVeh 2 "B", none)] := by
      unfold dispatchSuitable suitableOf rankVehicles
      rw [List.mergeSort_of_sorted (by decide)]
      rfl
    exact findBestVehicle_alternatives envTieAI reqPD [mkVeh 1 "A", mkVeh 2 "B"] true tariffZero
      false ⟨0, 0⟩ [⟨1, 1⟩] [⟨2, 2⟩, ⟨3, 3⟩] ⟨600, 5000⟩
      (fun _ => rfl) (by decide) rfl rfl (by decide) (by rw [hS]; simp)
      (fun _ => ⟨2, rfl⟩)

/-- C7: a failed routing query is handled differently per query: (1) when
the routing collaborator returns no route for the full (possibly
reordered) stop sequence, `findBestVehicle` aborts with the
main-route-calculation-failed typed error and no result; (2) when a
single vehicle-to-pickup query returns no route, that vehicle's
alternative is built with the sentinel travel ETA 999 (plus queue wait);
(3) and the assignment still completes with a ranked result whenever the
rest of the pipeline succeeds, regardless of any failed per-vehicle
queries (which the hypotheses do not constrain). -/
theorem findBestVehicle_route_failure (env : Env) (req : RideRequest)
    (vehicles : List Vehicle) (ai : Bool) (tariff : Tariff) (optimize : Bool) :
    (∀ (cs vcs : List Coord),
      (ai = true → env.hasApiKey = true) →
      vehicles.filter isInService ≠ [] →
      geocodeAll env.geocode req.stops = Except.ok cs →
      geocodeAll env.geocode ((vehicles.filter isInService).map (fun v => v.location)) =
        Except.ok vcs →
      env.route (applyOptimization env req ai optimize cs).1 = none →
      findBestVehicle env req vehicles ai tariff optimize =
        DispatchOutcome.err "error.mainRouteCalculationFailed" none)
    ∧ (∀ (v : Vehicle) (fd : String) (dist : ℚ),
        (mkAlternative env req fd dist tariff (v, none)).eta = 999 + waitTimeOf env v ∧
        (mkAlternative env req fd dist tariff (v, none)).waitTime = waitTimeOf env v)
    ∧ (∀ (c : Coord) (cs' vcs : List Coord) (main : OsrmRoute),
        (ai = true → env.hasApiKey = true) →
        vehicles.filter isInService ≠ [] →
        geocodeAll env.geocode req.stops = Except.ok (c :: cs') →
        geocodeAll env.geocode ((vehicles.filter isInService).map (fun v => v.location)) =
          Except.ok vcs →
        env.route (applyOptimization env req ai optimize (c :: cs')).1 = some main →
        dispatchSuitable env req vehicles ai optimize tariff (c :: cs') vcs c main ≠ [] →
        (ai = true → ∃ cid, env.aiChoice
          (dispatchSuitable env req vehicles ai optimize tariff (c :: cs') vcs c main) =
            some cid) →
        ∃ r, findBestVehicle env req vehicles ai tariff optimize = DispatchOutcome.ok r) := by
  refine ⟨?_, ?_, ?_⟩
  · intro cs vcs hkey hsvc hg1 hg2 hmain
    exact findBestVehicle_main_route_error env req vehicles ai tariff optimize cs vcs
      hkey hsvc hg1 hg2 hmain
  · intro v fd dist
    exact ⟨rfl, rfl⟩
  · intro c cs' vcs main hkey hsvc hg1 hg2 hmain hsuit hchoice
    rw [findBestVehicle_reaches_select env req vehicles ai tariff optimize c cs' vcs main
      hkey hsvc hg1 hg2 hmain]
    obtain ⟨b, rest, hbr⟩ := List.exists_cons_of_ne_nil hsuit
    rw [hbr]
    cases ai with
    | false => exact ⟨_, selectWinner_noai_ok env req _ _ _ _ b rest⟩
    | true =>
      obtain ⟨cid, hcid⟩ := hchoice rfl
      rw [hbr] at hcid
      have hw : ∃ w, chooseBestVehicleWithAI env (b :: rest) = some w := by
        unfold chooseBestVehicleWithAI
        rw [hcid]
        cases hf : (b :: rest).find? (fun a => a.vehicle.id == cid) with
        | some a => exact ⟨a, by simp [hf]⟩
        | none => exact ⟨b, by simp [hf]⟩
      obtain ⟨w, hch⟩ := hw
      exact ⟨_, selectWinner_ai_ok env req _ _ _ _ b rest w hch⟩

/-- C7 (witness): with a router that knows no route at all, the run
aborts with the main-route error; with a router that only knows the main
route, each vehicle alternative is built with the 999-minute sentinel and
the run still completes with a ranked result. -/
theorem findBestVehicle_route_failure_witness :
    findBestVehicle envNoRoute reqPD [mkVeh 1 "A"] false tariffZero false =
      DispatchOutcome.err "error.mainRouteCalculationFailed" none
    ∧ (mkAlternative envTie reqPD "D" 5 tariffZero (mkVeh 1 "A", none)).eta =
        999 + waitTimeOf envTie (mkVeh 1 "A")
    ∧ (∃ r, findBestVehicle envTie reqPD [mkVeh 1 "A", mkVeh 2 "B"] false tariffZero false =
        DispatchOutcome.ok r) := by
  refine ⟨?_, ?_, ?_⟩
  · exact (findBestVehicle_route_failure envNoRoute reqPD [mkVeh 1 "A"] false tariffZero
      false).1 [⟨0, 0⟩, ⟨1, 1⟩] [⟨2, 2⟩] (by decide) (by decide) rfl rfl rfl
  · exact ((findBestVehicle_route_failure envTie reqPD [mkVeh 1 "A"] false tariffZero
      false).2.1 (mkVeh 1 "A") "D" 5).1
  · have hS : dispatchSuitable envTie reqPD [mkVeh 1 "A", mkVeh 2 "B"] false false tariffZero
        [⟨0, 0⟩, ⟨1, 1⟩] [⟨2, 2⟩, ⟨3, 3⟩] ⟨0, 0⟩ ⟨600, 5000⟩
        = [mkAlternative envTie reqPD "D" ((5000 : ℚ) / 1000) tariffZero (mkVeh 1 "A", none),
           mkAlternative envTie reqPD "D" ((5000 : ℚ) / 1000) tariffZero (mkVeh 2 "B", none)] := by
      unfold dispatchSuitable suitableOf rankVehicles
      rw [List.mergeSort_of_sorted (by decide)]
      rfl
    exact (findBestVehicle_route_failure envTie reqPD [mkVeh 1 "A", mkVeh 2 "B"] false
      tariffZero false).2.2 ⟨0, 0⟩ [⟨1, 1⟩] [⟨2, 2⟩, ⟨3, 3⟩] ⟨600, 5000⟩
      (by decide) (by decide) rfl rfl (by decide) (by rw [hS]; simp)
      (by intro h; exact absurd h (by decide))

end RideShaman
